import Mathlib

/-!
Verification of the francetv provider (providers/francetv/francetv.go).

The Go code is shallowly embedded: the injected HTTP getter together with
the JSON decode step is abstracted by the outcome it produces (transport
error, decode error, or a decoded payload), and the pointer mutation that
GetShowInfo performs on its Show argument is made explicit by returning the
final state of the record next to the error value.
-/

/-- Air-date value: the part of a Go time.Time that GetShowFileName
observes through Format("2006") and Format("2006-01-02"). -/
structure Date where
  year : Nat
  month : Nat
  day : Nat
deriving DecidableEq, Repr

/-- The provider-agnostic Show record (providers.Show), restricted to the
fields the francetv code reads or writes. -/
structure Show where
  ID : String
  Show : String
  Title : String
  Season : String
  Episode : String
  Pitch : String
  AirDate : Date
  Channel : String
  Detailed : Bool
  DRM : Bool
  Duration : Nat
  Category : String
  Provider : String
  ShowURL : String
  StreamURL : String
  ThumbnailURL : String
deriving DecidableEq, Repr

/-- Provider name constant (ProviderName in francetv.go). -/
def ProviderName : String := "francetv"

/-- Modelled from the spec: one raw catalog entry of the pluzz listing
response (the pluzzList entry type is declared in a repository file that is
not part of src/); its fields are those francetv.go reads when mapping an
entry to a Show. -/
structure Emission where
  IDDiffusion : String
  Titre : String
  Soustitre : String
  Saison : String
  Episode : String
  Accroche : String
  TsDiffusionUtc : Date
  ChaineID : String
  DureeReelle : Nat
  Rubrique : String
  OasSitepage : String
  ImageLarge : String
deriving DecidableEq, Repr

/-- Modelled from the spec: the decoded catalog body (pluzzList), an
ordered sequence of raw entries under Reponse.Emissions. -/
structure Reponse where
  Emissions : List Emission
deriving DecidableEq, Repr

structure PluzzList where
  Reponse : Reponse
deriving DecidableEq, Repr

/-- Outcome of the catalog fetch-and-decode step of Shows.  A transport
failure yields no body at all.  Otherwise json.Decoder.Decode returns an
error flag and leaves the destination pluzzList in some state: on success
the fully decoded body, on a decode error whatever was populated before
the error (Go json may partially populate the value on a type error). -/
inductive CatalogFetch where
  | transportError
  | fetched (decodeError : Bool) (list : PluzzList)
deriving DecidableEq, Repr

/-- The mapping step of Shows: one raw catalog entry to a Show record,
exactly the record literal built inside the loop of Shows. -/
def mapShow (e : Emission) : Show :=
  { ID := e.IDDiffusion
    Show := e.Titre.trim
    Title := e.Soustitre.trim
    Season := e.Saison
    Episode := e.Episode
    Pitch := e.Accroche.trim
    AirDate := e.TsDiffusionUtc
    Channel := e.ChaineID
    Detailed := false
    DRM := false
    Duration := e.DureeReelle
    Category := e.Rubrique.trim
    Provider := ProviderName
    ShowURL := e.OasSitepage
    StreamURL := ""
    ThumbnailURL := e.ImageLarge }

/-- The emission loop of Shows: for each entry in source order, map it to a
Show and send it on the channel when the match predicate accepts it.  The
list returned is the sequence of records sent before the channel closes. -/
def showsLoop (isMatch : Show → Bool) : List Emission → List Show
  | [] => []
  | e :: rest =>
    let sh := mapShow e
    if isMatch sh then sh :: showsLoop isMatch rest
    else showsLoop isMatch rest

/-- The catalog stream producer Shows.  The goroutine performs one
fetch-and-decode (abstracted by its CatalogFetch outcome) and then runs the
emission loop; the sequence of Shows sent on the channel before it closes
is returned.  On a transport error the goroutine returns at once (zero
records).  On a decode error it only logs: the loop still runs over
whatever the decoder left in the list (there is no early return on that
branch in the Go code).  The match predicate stands for
providers.IsShowMatch applied to the caller's MatchRequest list. -/
def Shows (fetch : CatalogFetch) (isMatch : Show → Bool) : List Show :=
  match fetch with
  | .transportError => []
  | .fetched _ list => showsLoop isMatch list.Reponse.Emissions

/-- Modelled from the spec: one rendition descriptor of the detail payload
(the infoOeuvre video type is declared in a repository file that is not
part of src/): a format tag and a stream URL. -/
structure Video where
  Format : String
  URL : String
deriving DecidableEq, Repr

/-- Modelled from the spec: the decoded detail payload (infoOeuvre): a
secure thumbnail URL and an ordered list of offered renditions. -/
structure InfoOeuvre where
  ImageSecure : String
  Videos : List Video
deriving DecidableEq, Repr

/-- Outcome of the detail fetch-and-decode step of GetShowInfo for one
URL: transport failure, decode failure, or a decoded payload. -/
inductive InfoResult where
  | transportError
  | decodeError
  | ok (payload : InfoOeuvre)
deriving DecidableEq, Repr

/-- The three error values GetShowInfo can return (wrapped fmt.Errorf
messages in the Go code). -/
inductive InfoError where
  | cantGetInfo
  | cantDecodeInfo
  | noHlsStream
deriving DecidableEq, Repr

/-- Detail endpoint base URL (WSInfoOeuvre in francetv.go). -/
def WSInfoOeuvre : String :=
  "http://webservices.francetelevisions.fr/tools/getInfosOeuvre/v2/?catalogue=Pluzz&idDiffusion="

/-- The rendition scan of GetShowInfo: range over the videos, and on the
first one whose Format is "hls_v5_os" assign its URL to s.StreamURL and
break; when none matches, s.StreamURL keeps its current value. -/
def selectStreamURL (current : String) : List Video → String
  | [] => current
  | v :: rest => if v.Format = "hls_v5_os" then v.URL else selectStreamURL current rest

/-- The detail resolver GetShowInfo.  The Go function takes *providers.Show
and mutates it; here the returned pair is (the error value, the state of
the pointed-to Show after the call).  fetch stands for the injected getter
composed with the JSON decode of the response body, indexed by the
requested URL. -/
def GetShowInfo (fetch : String → InfoResult) (s : Show) : Option InfoError × Show :=
  if s.Detailed then (none, s)
  else
    match fetch (WSInfoOeuvre ++ s.ID) with
    | .transportError => (some .cantGetInfo, s)
    | .decodeError => (some .cantDecodeInfo, s)
    | .ok i =>
      let s1 : Show := { s with ThumbnailURL := i.ImageSecure }
      let s2 : Show := { s1 with StreamURL := selectStreamURL s1.StreamURL i.Videos }
      if s2.StreamURL = "" then (some .noHlsStream, s2)
      else (none, { s2 with Detailed := true })

/-- Modelled from the spec: providers.Format2Digits (declared in a
repository file that is not part of src/) zero-pads a number string to 2
digits. -/
def Format2Digits (s : String) : String :=
  if s.length < 2 then String.mk (List.replicate (2 - s.length) (Char.ofNat 48)) ++ s
  else s

/-- Left-pad the decimal form of a number with zeros, as Go time layouts
"2006", "01", "02" do for in-range dates. -/
def padNat (w n : Nat) : String :=
  let s := toString n
  if s.length < w then String.mk (List.replicate (w - s.length) (Char.ofNat 48)) ++ s
  else s

/-- Go AirDate.Format with layout 2006: the 4-digit year. -/
def formatYear (d : Date) : String := padNat 4 d.year

/-- Go AirDate.Format with layout 2006-01-02: the ISO date. -/
def formatDateISO (d : Date) : String :=
  padNat 4 d.year ++ "-" ++ padNat 2 d.month ++ "-" ++ padNat 2 d.day

/-- Go filepath.Join on the three produced segments: each segment here is
non-empty and free of dot segments and separators beyond its own text, so
Join is concatenation with the separator. -/
def filepathJoin (a b c : String) : String := a ++ "/" ++ b ++ "/" ++ c

/-- The path builder GetShowFileName.  The external sanitizers
providers.PathNameCleaner and providers.FileNameCleaner are injected as
parameters, mirroring their call sites exactly. -/
def GetShowFileName (pathNameCleaner fileNameCleaner : String → String) (s : Show) : String :=
  let showPath := pathNameCleaner s.Show
  let seasonPath :=
    if s.Season = "" then "Season " ++ formatYear s.AirDate
    else "Season " ++ Format2Digits s.Season
  let episodeBase :=
    if s.Episode = "" then fileNameCleaner s.Show ++ " - " ++ formatDateISO s.AirDate
    else
      fileNameCleaner s.Show ++ " - s" ++ Format2Digits s.Season ++ "e" ++
        Format2Digits s.Episode
  let episodePath :=
    if s.Episode = "" ∧ (s.Title = "" ∨ s.Title = s.Show) then
      episodeBase ++ " - " ++ s.ID ++ ".mp4"
    else if s.Title ≠ "" ∧ s.Title ≠ s.Show then
      episodeBase ++ " - " ++ fileNameCleaner s.Title ++ ".mp4"
    else episodeBase ++ ".mp4"
  filepathJoin showPath seasonPath episodePath

/-- GetShowFileNameMatcher: the Go method body is a single call of
GetShowFileName on the same receiver and argument. -/
def GetShowFileNameMatcher (pathNameCleaner fileNameCleaner : String → String)
    (s : Show) : String :=
  GetShowFileName pathNameCleaner fileNameCleaner s

/-! Concrete sample values used by witnesses and counterexamples. -/

def emptyShow : Show :=
  { ID := "", Show := "", Title := "", Season := "", Episode := "", Pitch := ""
    AirDate := ⟨0, 0, 0⟩, Channel := "", Detailed := false, DRM := false
    Duration := 0, Category := "", Provider := "", ShowURL := "", StreamURL := ""
    ThumbnailURL := "" }

def matchAll : Show → Bool := fun _ => true

def wEmission : Emission :=
  { IDDiffusion := "id1", Titre := "A Show", Soustitre := "", Saison := "1"
    Episode := "2", Accroche := "", TsDiffusionUtc := ⟨2023, 5, 1⟩
    ChaineID := "france2", DureeReelle := 0, Rubrique := "", OasSitepage := ""
    ImageLarge := "img" }

def emptyEmission : Emission :=
  { IDDiffusion := "", Titre := "", Soustitre := "", Saison := "", Episode := ""
    Accroche := "", TsDiffusionUtc := ⟨0, 0, 0⟩, ChaineID := "", DureeReelle := 0
    Rubrique := "", OasSitepage := "", ImageLarge := "" }

def fetchTransport : String → InfoResult := fun _ => InfoResult.transportError

def fetchDecodeErr : String → InfoResult := fun _ => InfoResult.decodeError

/-! Helper lemmas. -/

/-- The emission loop is the order-preserving filter of the mapped entry
sequence. -/
theorem showsLoop_eq_filter_map (isMatch : Show → Bool) (l : List Emission) :
    showsLoop isMatch l = (l.map mapShow).filter isMatch := by
  induction l with
  | nil => rfl
  | cons e rest ih =>
    by_cases h : isMatch (mapShow e) <;>
      simp [showsLoop, List.filter_cons, h, ih]

/-- When some rendition carries the target format, the scan stops at the
first one and yields its URL. -/
theorem selectStreamURL_eq_of_find_some (cur : String) {l : List Video} {v : Video}
    (h : l.find? (fun w => w.Format == "hls_v5_os") = some v) :
    selectStreamURL cur l = v.URL := by
  induction l with
  | nil => simp [List.find?] at h
  | cons a rest ih =>
    by_cases ha : a.Format = "hls_v5_os"
    · rw [List.find?_cons_of_pos _ (by simp [ha])] at h
      cases h
      simp [selectStreamURL, ha]
    · rw [List.find?_cons_of_neg _ (by simp [ha])] at h
      simp [selectStreamURL, ha, ih h]

/-- When no rendition carries the target format, the scan leaves the
current StreamURL in place. -/
theorem selectStreamURL_eq_of_find_none (cur : String) {l : List Video}
    (h : l.find? (fun w => w.Format == "hls_v5_os") = none) :
    selectStreamURL cur l = cur := by
  induction l with
  | nil => rfl
  | cons a rest ih =>
    by_cases ha : a.Format = "hls_v5_os"
    · rw [List.find?_cons_of_pos _ (by simp [ha])] at h
      cases h
    · rw [List.find?_cons_of_neg _ (by simp [ha])] at h
      simp [selectStreamURL, ha, ih h]

/-! Claim theorems. -/

/-- C3: every Show record emitted by the catalog stream producer Shows has
Detailed = false and StreamURL = "" at the moment it is emitted, for every
catalog response and every set of match criteria. -/
theorem shows_emitted_not_detailed_no_stream (fetch : CatalogFetch)
    (isMatch : Show → Bool) (s : Show) (h : s ∈ Shows fetch isMatch) :
    s.Detailed = false ∧ s.StreamURL = "" := by
  cases fetch with
  | transportError => simp [Shows] at h
  | fetched d list =>
    simp only [Shows] at h
    rw [showsLoop_eq_filter_map] at h
    rcases List.mem_map.mp (List.mem_of_mem_filter h) with ⟨e, _, rfl⟩
    exact ⟨rfl, rfl⟩

theorem shows_emitted_not_detailed_no_stream_witness :
    (mapShow wEmission).Detailed = false ∧ (mapShow wEmission).StreamURL = "" :=
  shows_emitted_not_detailed_no_stream (CatalogFetch.fetched false ⟨⟨[wEmission]⟩⟩)
    matchAll (mapShow wEmission) (by simp [Shows, showsLoop, matchAll])

/-- C9: for every decoded catalog entry sequence and every match
predicate, the sequence of Show records emitted by Shows is the
order-preserving filter of the mapped entry sequence. -/
theorem shows_order_preserving_filter (decodeErr : Bool) (list : PluzzList)
    (isMatch : Show → Bool) :
    Shows (CatalogFetch.fetched decodeErr list) isMatch
      = (list.Reponse.Emissions.map mapShow).filter isMatch :=
  showsLoop_eq_filter_map isMatch list.Reponse.Emissions

/-- C2 (code bug): on a transport failure Shows does emit zero records,
but on a decode failure the Go code only logs and does not return, so the
loop still emits whatever the decoder left in the list: with a catalog
body that fails decoding after one matching entry was populated, one Show
is emitted although the decode step reported an error. -/
theorem shows_decode_error_still_emits :
    Shows CatalogFetch.transportError matchAll = [] ∧
    Shows (CatalogFetch.fetched true ⟨⟨[wEmission]⟩⟩) matchAll
      = [mapShow wEmission] :=
  ⟨rfl, rfl⟩

/-- C4 counterexample: a valid catalog body whose single entry has an
empty id_diffusion field makes Shows emit a Show whose ID is empty. -/
theorem shows_emits_empty_id :
    Shows (CatalogFetch.fetched false ⟨⟨[emptyEmission]⟩⟩) matchAll
      = [mapShow emptyEmission] ∧
    (mapShow emptyEmission).ID = "" :=
  ⟨rfl, rfl⟩

/-- C4 amended: every emitted Show carries its entry's id_diffusion as ID,
so whenever every entry of the decoded catalog body has a non-empty
id_diffusion, every emitted Show has a non-empty ID, for every set of
match criteria. -/
theorem shows_id_nonempty_of_entries (decodeErr : Bool) (list : PluzzList)
    (isMatch : Show → Bool)
    (h : ∀ e ∈ list.Reponse.Emissions, e.IDDiffusion ≠ "") :
    ∀ s ∈ Shows (CatalogFetch.fetched decodeErr list) isMatch, s.ID ≠ "" := by
  intro s hs
  simp only [Shows] at hs
  rw [showsLoop_eq_filter_map] at hs
  rcases List.mem_map.mp (List.mem_of_mem_filter hs) with ⟨e, he, rfl⟩
  exact h e he

theorem shows_id_nonempty_of_entries_witness : (mapShow wEmission).ID ≠ "" :=
  shows_id_nonempty_of_entries false ⟨⟨[wEmission]⟩⟩ matchAll
    (by decide) (mapShow wEmission) (by simp [Shows, showsLoop, matchAll])

def detailedShow : Show :=
  { emptyShow with
    ID := "d1"
    Detailed := true
    StreamURL := "http://already"
    ThumbnailURL := "tn" }

/-- C5: GetShowInfo is idempotent: on a Show whose Detailed flag is
already true it returns nil at once, leaves every field unchanged, and
its outcome does not depend on the injected getter at all (so the getter
is never invoked). -/
theorem getShowInfo_idempotent (fetch fetch2 : String → InfoResult) (s : Show)
    (h : s.Detailed = true) :
    GetShowInfo fetch s = (none, s) ∧ GetShowInfo fetch s = GetShowInfo fetch2 s := by
  simp [GetShowInfo, h]

theorem getShowInfo_idempotent_witness :
    GetShowInfo fetchTransport detailedShow = (none, detailedShow) :=
  (getShowInfo_idempotent fetchTransport fetchDecodeErr detailedShow rfl).1

def c1Show : Show := { emptyShow with ID := "x1", ThumbnailURL := "old" }

def c1fetch : String → InfoResult := fun _ => InfoResult.ok ⟨"new", []⟩

/-- C1 counterexample: on a payload that decodes but offers no rendition
with the target format, GetShowInfo returns an error, yet ThumbnailURL has
been overwritten with the payload's secure thumbnail (the Go code assigns
s.ThumbnailURL before the missing-rendition check). -/
theorem getShowInfo_failure_mutates_thumbnail :
    (GetShowInfo c1fetch c1Show).1 = some InfoError.noHlsStream ∧
    (GetShowInfo c1fetch c1Show).2.ThumbnailURL = "new" ∧
    c1Show.ThumbnailURL = "old" := by
  refine ⟨by decide, by decide, by decide⟩

/-- C1 amended: every failing call of GetShowInfo returns a non-nil error
and leaves Detailed unchanged; on a transport or decode failure the whole
record is unchanged; on the missing-rendition failure StreamURL is empty
after the call, but ThumbnailURL has been set to the decoded payload's
secure thumbnail URL. -/
theorem getShowInfo_failure_mutation (fetch : String → InfoResult) (s : Show) :
    ((GetShowInfo fetch s).1 = some InfoError.cantGetInfo ∨
        (GetShowInfo fetch s).1 = some InfoError.cantDecodeInfo →
      (GetShowInfo fetch s).2 = s) ∧
    ((GetShowInfo fetch s).1 = some InfoError.noHlsStream →
      (GetShowInfo fetch s).2.Detailed = s.Detailed ∧
      (GetShowInfo fetch s).2.StreamURL = "" ∧
      ∃ i, fetch (WSInfoOeuvre ++ s.ID) = InfoResult.ok i ∧
        (GetShowInfo fetch s).2.ThumbnailURL = i.ImageSecure) := by
  by_cases hd : s.Detailed
  · simp [GetShowInfo, hd]
  · cases hfetch : fetch (WSInfoOeuvre ++ s.ID) with
    | transportError => simp [GetShowInfo, hd, hfetch]
    | decodeError => simp [GetShowInfo, hd, hfetch]
    | ok i =>
      by_cases hurl : selectStreamURL s.StreamURL i.Videos = ""
      · simp [GetShowInfo, hd, hfetch, hurl]
      · simp [GetShowInfo, hd, hfetch, hurl]

theorem getShowInfo_failure_mutation_witness :
    (GetShowInfo fetchTransport c1Show).1 = some InfoError.cantGetInfo ∧
    (GetShowInfo fetchTransport c1Show).2 = c1Show :=
  ⟨by decide, (getShowInfo_failure_mutation fetchTransport c1Show).1 (Or.inl (by decide))⟩

def c6Payload : InfoOeuvre :=
  ⟨"thumb", [⟨"hls_v5_os", ""⟩, ⟨"hls_v5_os", "http://stream"⟩]⟩

def c6fetch : String → InfoResult := fun _ => InfoResult.ok c6Payload

/-- C6 counterexample: a payload that does contain a rendition with the
target format and a non-empty URL (at index 1), yet GetShowInfo returns an
error, because the scan stops at the first format match (index 0), whose
URL is empty. -/
theorem getShowInfo_error_despite_nonempty_rendition :
    c6Payload.Videos.get? 1 = some ⟨"hls_v5_os", "http://stream"⟩ ∧
    emptyShow.Detailed = false ∧
    (GetShowInfo c6fetch emptyShow).1 = some InfoError.noHlsStream := by
  refine ⟨by decide, by decide, by decide⟩

/-- C6 amended: for every Show s with s.Detailed = false and every detail
payload whose first rendition carrying the target format "hls_v5_os" has a
non-empty URL, GetShowInfo returns nil and afterwards s.StreamURL equals
that rendition's URL, s.ThumbnailURL equals the payload's secure thumbnail
URL, and s.Detailed = true. -/
theorem getShowInfo_success_first_rendition (fetch : String → InfoResult)
    (s : Show) (i : InfoOeuvre) (v : Video)
    (hd : s.Detailed = false)
    (hf : fetch (WSInfoOeuvre ++ s.ID) = InfoResult.ok i)
    (hv : i.Videos.find? (fun w => w.Format == "hls_v5_os") = some v)
    (hu : v.URL ≠ "") :
    (GetShowInfo fetch s).1 = none ∧
    (GetShowInfo fetch s).2.StreamURL = v.URL ∧
    (GetShowInfo fetch s).2.ThumbnailURL = i.ImageSecure ∧
    (GetShowInfo fetch s).2.Detailed = true := by
  have hsel := selectStreamURL_eq_of_find_some s.StreamURL hv
  simp [GetShowInfo, hd, hf, hsel, hu]

def c6okPayload : InfoOeuvre :=
  ⟨"thumb", [⟨"other", "x"⟩, ⟨"hls_v5_os", "http://u"⟩]⟩

def c6okFetch : String → InfoResult := fun _ => InfoResult.ok c6okPayload

theorem getShowInfo_success_first_rendition_witness :
    (GetShowInfo c6okFetch emptyShow).1 = none ∧
    (GetShowInfo c6okFetch emptyShow).2.StreamURL = "http://u" ∧
    (GetShowInfo c6okFetch emptyShow).2.ThumbnailURL = "thumb" ∧
    (GetShowInfo c6okFetch emptyShow).2.Detailed = true :=
  getShowInfo_success_first_rendition c6okFetch emptyShow c6okPayload
    ⟨"hls_v5_os", "http://u"⟩ (by decide) rfl (by decide) (by decide)

def c10Show : Show := { emptyShow with ID := "x2", StreamURL := "http://old" }

def c10Payload : InfoOeuvre := ⟨"thumb2", [⟨"other", "x"⟩]⟩

def c10fetch : String → InfoResult := fun _ => InfoResult.ok c10Payload

/-- C10: when GetShowInfo runs on a Show with Detailed = false but a
non-empty StreamURL and the decoded payload offers no rendition with the
target format, the call still returns nil, overwrites ThumbnailURL with
the payload's secure thumbnail, keeps the stale StreamURL and sets
Detailed = true, because the missing-rendition error is detected by
testing whether StreamURL is empty after the scan. -/
theorem getShowInfo_stale_stream_url (fetch : String → InfoResult)
    (s : Show) (i : InfoOeuvre)
    (hd : s.Detailed = false) (hs : s.StreamURL ≠ "")
    (hf : fetch (WSInfoOeuvre ++ s.ID) = InfoResult.ok i)
    (hn : i.Videos.find? (fun w => w.Format == "hls_v5_os") = none) :
    (GetShowInfo fetch s).1 = none ∧
    (GetShowInfo fetch s).2.Detailed = true ∧
    (GetShowInfo fetch s).2.ThumbnailURL = i.ImageSecure ∧
    (GetShowInfo fetch s).2.StreamURL = s.StreamURL := by
  have hsel := selectStreamURL_eq_of_find_none s.StreamURL hn
  simp [GetShowInfo, hd, hf, hsel, hs]

theorem getShowInfo_stale_stream_url_witness :
    (GetShowInfo c10fetch c10Show).1 = none ∧
    (GetShowInfo c10fetch c10Show).2.Detailed = true ∧
    (GetShowInfo c10fetch c10Show).2.ThumbnailURL = "thumb2" ∧
    (GetShowInfo c10fetch c10Show).2.StreamURL = "http://old" :=
  getShowInfo_stale_stream_url c10fetch c10Show c10Payload
    (by decide) (by decide) rfl (by decide)

/-- C7: GetShowFileNameMatcher returns the same string as GetShowFileName
on every Show and for every pair of injected sanitizers: the matcher path
and the save path are the same function. -/
theorem getShowFileNameMatcher_eq_getShowFileName
    (pathNameCleaner fileNameCleaner : String → String) (s : Show) :
    GetShowFileNameMatcher pathNameCleaner fileNameCleaner s
      = GetShowFileName pathNameCleaner fileNameCleaner s := rfl

def c8Journal : Show :=
  { emptyShow with
    ID := "abc123"
    Show := "Le Journal"
    AirDate := ⟨2023, 5, 1⟩ }

def c8Pilot : Show :=
  { emptyShow with
    Show := "Drama"
    Season := "2"
    Episode := "5"
    Title := "Pilot"
    AirDate := ⟨2023, 5, 1⟩ }

def c8Same : Show :=
  { emptyShow with
    Show := "Drama"
    Season := "2"
    Episode := "5"
    Title := "Drama" }

/-- C8: the three concrete example cases of GetShowFileName, with both
external sanitizers instantiated with the identity function. -/
theorem getShowFileName_examples :
    GetShowFileName id id c8Journal
      = "Le Journal/Season 2023/Le Journal - 2023-05-01 - abc123.mp4" ∧
    GetShowFileName id id c8Pilot
      = "Drama/Season 02/Drama - s02e05 - Pilot.mp4" ∧
    GetShowFileName id id c8Same
      = "Drama/Season 02/Drama - s02e05.mp4" := by
  refine ⟨by decide, by decide, by decide⟩
